import Mathlib

/-!
Verification of the main-window controller of Vencord Desktop
(`src/main/mainWindow.ts`), shallowly embedded in Lean 4.

Settings values read from the persisted stores are modelled as `Option`
types: `none` is JavaScript `undefined` (the key is absent), `some v` a
present value.  JavaScript truthiness of such a value is `(· == some true)`
for booleans, strict equality `=== false` is `(· == some false)`, and the
null-coalescing `?? d` is `Option.getD d`.
-/

namespace MainWindow

/-- A persisted `windowBounds` record; every field may be absent
(`getWindowBoundsOptions` destructures `Settings.store.windowBounds ?? {}`,
so each coordinate is individually optional). -/
structure WindowBoundsRecord where
  x : Option Int
  y : Option Int
  width : Option Int
  height : Option Int
  deriving Repr, DecidableEq

/-- The keys of `Settings.store` read by `mainWindow.ts`. -/
structure SettingsStore where
  windowBounds : Option WindowBoundsRecord
  disableMinSize : Option Bool
  staticTitle : Option Bool
  tray : Option Bool
  minimizeToTray : Option Bool
  discordBranch : Option String
  maximized : Option Bool
  minimized : Option Bool
  deriving Repr, DecidableEq

/-- The keys of `VencordSettings.store` read by `mainWindow.ts`. -/
structure VencordSettingsStore where
  winCtrlQ : Option Bool
  frameless : Option Bool
  macosTranslucency : Option Bool
  deriving Repr, DecidableEq

/-- JavaScript truthiness of an optional boolean setting value. -/
def truthy (o : Option Bool) : Bool :=
  o == some true

/-- Modelled from the spec: `DEFAULT_WIDTH` is one of the fixed default
size constants imported from `./constants`, a file not included here; the
spec fixes no numeric value and no claim depends on it. -/
def DEFAULT_WIDTH : Int := 1280

/-- Modelled from the spec: `DEFAULT_HEIGHT`, the other fixed default
size constant from `./constants`. -/
def DEFAULT_HEIGHT : Int := 720

/-- Modelled from the spec: `MIN_WIDTH`, one of the fixed minimum size
constants from `./constants`; the spec fixes no numeric value and no
claim depends on it. -/
def MIN_WIDTH : Int := 940

/-- Modelled from the spec: `MIN_HEIGHT`, the other fixed minimum size
constant from `./constants`. -/
def MIN_HEIGHT : Int := 500

/-- The subset of `BrowserWindowConstructorOptions` produced by
`getWindowBoundsOptions`: `width`/`height` are always set, `x`/`y` and
`minWidth`/`minHeight` only sometimes. -/
structure WindowBoundsOptions where
  width : Int
  height : Int
  x : Option Int
  y : Option Int
  minWidth : Option Int
  minHeight : Option Int
  deriving Repr, DecidableEq

/-- The empty record used when `windowBounds` is absent
(`Settings.store.windowBounds ?? {}`). -/
def emptyBounds : WindowBoundsRecord :=
  { x := none, y := none, width := none, height := none }

/-- `getWindowBoundsOptions` (lines 165-184): width/height from the
persisted record with defaults, `x`/`y` copied only when both are
non-null, and the minimum-size fields added when `disableMinSize` is not
truthy. -/
def getWindowBoundsOptions (s : SettingsStore) : WindowBoundsOptions :=
  let b := s.windowBounds.getD emptyBounds
  let options : WindowBoundsOptions :=
    { width := b.width.getD DEFAULT_WIDTH
      height := b.height.getD DEFAULT_HEIGHT
      x := none, y := none, minWidth := none, minHeight := none }
  let options :=
    if b.x.isSome && b.y.isSome then
      { options with x := b.x, y := b.y }
    else options
  if !truthy s.disableMinSize then
    { options with minWidth := some MIN_WIDTH, minHeight := some MIN_HEIGHT }
  else options

/-- A window size, as returned by the width/height part of
`win.getBounds()` and consumed by `win.setMinimumSize`/`win.setBounds`. -/
structure WinSize where
  width : Int
  height : Int
  deriving Repr, DecidableEq

/-- The live-window state the `disableMinSize` change listener touches:
its current size and its minimum size constraint. -/
structure WinGeometry where
  size : WinSize
  minSize : WinSize
  deriving Repr, DecidableEq

/-- The `disableMinSize` change listener (lines 209-222): on `true`,
`win.setMinimumSize(1, 1)`; on `false`, restore the minimum-size
constants and `win.setBounds` with each dimension clamped up to the
minimum via `Math.max`. -/
def onDisableMinSizeChange (w : WinGeometry) (disable : Bool) : WinGeometry :=
  if disable then
    { w with minSize := { width := 1, height := 1 } }
  else
    { minSize := { width := MIN_WIDTH, height := MIN_HEIGHT }
      size := { width := max w.size.width MIN_WIDTH
                height := max w.size.height MIN_HEIGHT } }

/-- `mainWindow.ts` line 17: `let isQuitting = false;`. -/
def initialIsQuitting : Bool := false

/-- Outcome of one dispatch of the window's `close` event handler:
whether `e.preventDefault()` was called (the close is cancelled) and
whether `win.hide()` was called. -/
structure CloseResult where
  prevented : Bool
  hid : Bool
  deriving Repr, DecidableEq

/-- The `close` handler registered in `createMainWindow` (lines 258-265):
`if (isQuitting || Settings.store.minimizeToTray === false ||
Settings.store.tray === false) return;` then `e.preventDefault();
win.hide();`. -/
def closeHandler (isQuitting : Bool) (s : SettingsStore) : CloseResult :=
  if isQuitting || s.minimizeToTray == some false || s.tray == some false then
    { prevented := false, hid := false }
  else
    { prevented := true, hid := true }

/-- The subdomain computed in `createMainWindow` (lines 279-282):
`canary.` or `ptb.` when `discordBranch` is exactly one of those strings,
otherwise the empty string. -/
def getSubdomain (branch : Option String) : String :=
  if branch == some "canary" || branch == some "ptb" then
    branch.getD "" ++ "."
  else
    ""

/-- The URL passed to `win.loadURL` (line 284). -/
def loadedUrl (branch : Option String) : String :=
  "https://" ++ getSubdomain branch ++ "discord.com/app"

/-- One entry of the tray context-menu template built in `initTray`
(lines 27-64).  Electron menu items are enabled unless the template says
otherwise; only the `Open` item sets `enabled: false`. -/
structure TrayItemModel where
  label : Option String
  isSeparator : Bool
  enabled : Bool
  deriving Repr, DecidableEq

/-- The tray context-menu template of `initTray`, in order: Open (built
disabled), About, Update Vencord, a separator, Relaunch, Quit Vencord
Desktop. -/
def trayMenuItems : List TrayItemModel :=
  [ { label := some "Open", isSeparator := false, enabled := false },
    { label := some "About", isSeparator := false, enabled := true },
    { label := some "Update Vencord", isSeparator := false, enabled := true },
    { label := none, isSeparator := true, enabled := true },
    { label := some "Relaunch", isSeparator := false, enabled := true },
    { label := some "Quit Vencord Desktop", isSeparator := false, enabled := true } ]

/-- The pair of mutable facts the show/hide listeners of `initTray`
relate: whether the window is visible and whether `trayMenu.items[0]`
(the Open item) is enabled. -/
structure TrayMenuSync where
  winVisible : Bool
  openEnabled : Bool
  deriving Repr, DecidableEq

/-- A window visibility event dispatched by the toolkit. -/
inductive VisibilityEvent where
  | show
  | hide
  deriving Repr, DecidableEq

/-- The `show`/`hide` listeners of `initTray` (lines 71-77): after a
`show` event the window is visible and `trayMenu.items[0].enabled` is set
to `false`; after a `hide` event the window is hidden and it is set to
`true`. -/
def onVisibilityEvent (_st : TrayMenuSync) : VisibilityEvent → TrayMenuSync
  | .show => { winVisible := true, openEnabled := false }
  | .hide => { winVisible := false, openEnabled := true }

/-- The tray-related state tracked across `tray` setting changes: whether
a live tray icon exists and the current persisted value of the `tray`
key. -/
structure TrayState where
  trayExists : Bool
  traySetting : Option Bool
  deriving Repr, DecidableEq

/-- The effective value of the `tray` setting: absent defaults to `true`
(`Settings.store.tray ?? true`, line 270). -/
def trayEffective (o : Option Bool) : Bool :=
  o.getD true

/-- The tray state right after `createMainWindow` (line 270):
`if (Settings.store.tray ?? true) initTray(win);`. -/
def initialTrayState (s : SettingsStore) : TrayState :=
  { trayExists := s.tray.getD true, traySetting := s.tray }

/-- The `tray` change listener (lines 205-208): `enable =>
if (enable) initTray(win); else tray?.destroy();`. -/
def onTrayChange (_st : TrayState) (enable : Bool) : TrayState :=
  { traySetting := some enable
    trayExists := if enable then true else false }

/-- The tray state after `createMainWindow` followed by a sequence of
`tray` setting-change notifications. -/
def applyTrayChanges (s : SettingsStore) (evs : List Bool) : TrayState :=
  evs.foldl onTrayChange (initialTrayState s)

/-- One entry of the application-menu template built in `initMenuBar`
(lines 84-160), restricted to the fields the template varies: label,
accelerator and visibility. -/
structure MenuItemModel where
  label : String
  accelerator : Option String
  visible : Bool
  deriving Repr, DecidableEq

/-- Line 82: `const wantCtrlQ = !isWindows || VencordSettings.store.winCtrlQ;`. -/
def wantCtrlQ (isWindows : Bool) (winCtrlQ : Option Bool) : Bool :=
  !isWindows || truthy winCtrlQ

/-- The `appMenu` submenu of `initMenuBar`, in template order. -/
def appSubmenu (isWindows : Bool) (winCtrlQ : Option Bool) : List MenuItemModel :=
  [ { label := "About Vencord Desktop", accelerator := none, visible := true },
    { label := "Force Update Vencord", accelerator := none, visible := true },
    { label := "Relaunch", accelerator := some "CmdOrCtrl+Shift+R", visible := true },
    { label := "Quit"
      accelerator := if wantCtrlQ isWindows winCtrlQ then some "CmdOrCtrl+Q" else none
      visible := !isWindows },
    { label := "Quit"
      accelerator := if isWindows then some "Alt+F4" else none
      visible := isWindows },
    { label := "Zoom in (hidden, hack for Qwertz and others)"
      accelerator := some "CmdOrCtrl+="
      visible := false },
    { label := "Quit", accelerator := some "CmdOrCtrl+Q", visible := false },
    { label := "Quick Switcher", accelerator := some "CmdOrCtrl+T", visible := true } ]

/-- The Quit items of the submenu that are actually visible. -/
def visibleQuitItems (isWindows : Bool) (winCtrlQ : Option Bool) : List MenuItemModel :=
  (appSubmenu isWindows winCtrlQ).filter fun i => i.label == "Quit" && i.visible

/-- The window geometry and state queried by the bounds listeners:
`win.isMaximized()`, `win.isMinimized()` and `win.getBounds()` (a full
rectangle; a live window always has all four fields). -/
structure Rect where
  x : Int
  y : Int
  width : Int
  height : Int
  deriving Repr, DecidableEq

/-- A snapshot of the queryable window state at the moment an event
handler runs. -/
structure WinQueryState where
  isMaximized : Bool
  isMinimized : Bool
  bounds : Rect
  deriving Repr, DecidableEq

/-- One write to `Settings.store` performed by the bounds listeners. -/
inductive SettingsWrite where
  | maximized (b : Bool)
  | minimized (b : Bool)
  | windowBounds (r : Rect)
  deriving Repr, DecidableEq

/-- `saveState` (lines 187-190): writes both `maximized` and `minimized`,
each queried from the window. -/
def saveState (w : WinQueryState) : List SettingsWrite :=
  [SettingsWrite.maximized w.isMaximized, SettingsWrite.minimized w.isMinimized]

/-- `saveBounds` (lines 196-198): writes `windowBounds` from
`win.getBounds()`. -/
def saveBounds (w : WinQueryState) : List SettingsWrite :=
  [SettingsWrite.windowBounds w.bounds]

/-- The window events `initWindowBoundsListeners` subscribes to. -/
inductive BoundsEvent where
  | maximize
  | minimize
  | unmaximize
  | resize
  | move
  deriving Repr, DecidableEq

/-- The handler wiring of `initWindowBoundsListeners` (lines 186-202):
`maximize`/`minimize`/`unmaximize` run `saveState`, `resize`/`move` run
`saveBounds`. -/
def boundsEventWrites (w : WinQueryState) : BoundsEvent → List SettingsWrite
  | .maximize => saveState w
  | .minimize => saveState w
  | .unmaximize => saveState w
  | .resize => saveBounds w
  | .move => saveBounds w

/-- The events of this module that can run while the app lives. -/
inductive AppEvent where
  | beforeQuit
  | trayQuitClick
  | trayOpenClick
  | trayIconClick
  | closeRequest
  | showEvent
  | hideEvent
  | moveOrResize
  | maximizeOrMinimize
  deriving Repr, DecidableEq

/-- Effect of one event on the module-level `isQuitting` flag: the
`before-quit` handler (lines 20-22) and the tray Quit click (lines 58-63)
set it to `true`; no other handler in the module touches it. -/
def stepQuitting (q : Bool) : AppEvent → Bool
  | .beforeQuit => true
  | .trayQuitClick => true
  | _ => q

/-- The `isQuitting` flag after a sequence of events. -/
def runQuitting (q : Bool) (evs : List AppEvent) : Bool :=
  evs.foldl stepQuitting q

/-- The `BrowserWindowConstructorOptions` assembled in `createMainWindow`
(lines 236-256), restricted to the fields this module computes. -/
structure MainWindowOptions where
  «show» : Bool
  autoHideMenuBar : Bool
  frame : Bool
  title : Option String
  vibrancy : Option String
  backgroundColor : Option String
  boundsOptions : WindowBoundsOptions
  deriving Repr, DecidableEq

/-- The options object passed to `new BrowserWindow` in
`createMainWindow`: shown disabled, frameless unless `frameless !== true`
fails, a static title and translucency spread in conditionally, and the
bounds options appended. -/
def createMainWindowOptions (s : SettingsStore) (v : VencordSettingsStore) :
    MainWindowOptions :=
  { «show» := false
    autoHideMenuBar := true
    frame := v.frameless != some true
    title := if truthy s.staticTitle then some "Vencord" else none
    vibrancy := if truthy v.macosTranslucency then some "sidebar" else none
    backgroundColor := if truthy v.macosTranslucency then some "#ffffff00" else none
    boundsOptions := getWindowBoundsOptions s }

/-- The fixed user-agent string set on the web contents (lines 275-277). -/
def userAgentString : String :=
  "Mozilla/5.0 (Windows NT 10.0; Win64; x64) AppleWebKit/537.36 (KHTML, like Gecko) Chrome/111.0.0.0 Safari/537.36"

/-- The side-effecting steps `createMainWindow` performs, in order. -/
inductive StartupAction where
  | registerCloseHandler
  | registerPageTitleUpdatedHandler
  | registerWindowBoundsListeners
  | runInitTray
  | runInitMenuBar
  | runMakeLinksOpenExternally
  | registerSettingsListeners
  | setUserAgent (ua : String)
  | loadUrl (u : String)
  | showWindow
  deriving Repr, DecidableEq

/-- The sequence of steps `createMainWindow` (lines 235-287) runs after
constructing the window: handler registrations, then the user agent, then
`loadURL`.  Nothing in the function calls `win.show()`. -/
def createMainWindowActions (s : SettingsStore) : List StartupAction :=
  [StartupAction.registerCloseHandler] ++
  (if truthy s.staticTitle then [StartupAction.registerPageTitleUpdatedHandler] else []) ++
  [StartupAction.registerWindowBoundsListeners] ++
  (if s.tray.getD true then [StartupAction.runInitTray] else []) ++
  [StartupAction.runInitMenuBar,
   StartupAction.runMakeLinksOpenExternally,
   StartupAction.registerSettingsListeners,
   StartupAction.setUserAgent userAgentString,
   StartupAction.loadUrl (loadedUrl s.discordBranch)]

end MainWindow

namespace MainWindow

/-- C1: a close request proceeds normally (not prevented, window not
hidden) exactly when the quitting flag is set, or `minimizeToTray` is
persisted as `false`, or `tray` is persisted as `false`; in every other
state the close is cancelled and the window is hidden instead. -/
theorem close_policy (q : Bool) (s : SettingsStore) :
    (closeHandler q s = { prevented := false, hid := false } ↔
      (q = true ∨ s.minimizeToTray = some false ∨ s.tray = some false)) ∧
    (closeHandler q s = { prevented := true, hid := true } ↔
      ¬(q = true ∨ s.minimizeToTray = some false ∨ s.tray = some false)) := by
  unfold closeHandler
  by_cases hq : q = true <;>
    by_cases hm : s.minimizeToTray = some false <;>
      by_cases ht : s.tray = some false <;>
        simp [hq, hm, ht]

/-- C4: the loaded URL is `https://canary.discord.com/app` when the
`discordBranch` setting is `"canary"`, `https://ptb.discord.com/app` when
it is `"ptb"`, and `https://discord.com/app` for every other value
(including absent); in particular only these three URLs are possible. -/
theorem loadedUrl_from_branch (b : Option String) :
    loadedUrl (some "canary") = "https://canary.discord.com/app" ∧
    loadedUrl (some "ptb") = "https://ptb.discord.com/app" ∧
    (b ≠ some "canary" → b ≠ some "ptb" → loadedUrl b = "https://discord.com/app") ∧
    (loadedUrl b = "https://canary.discord.com/app" ∨
      loadedUrl b = "https://ptb.discord.com/app" ∨
      loadedUrl b = "https://discord.com/app") := by
  refine ⟨rfl, rfl, ?_, ?_⟩
  · intro hc hp
    unfold loadedUrl getSubdomain
    simp [hc, hp]
  · unfold loadedUrl getSubdomain
    by_cases hc : b = some "canary"
    · left; simp [hc]
    · by_cases hp : b = some "ptb"
      · right; left; simp [hp]
      · right; right; simp [hc, hp]

/-- Witness for `loadedUrl_from_branch`: at `b = none`, neither branch
string matches and the production URL is loaded. -/
theorem loadedUrl_from_branch_witness :
    loadedUrl none = "https://discord.com/app" :=
  (loadedUrl_from_branch none).2.2.1 (by decide) (by decide)

/-- C5: for every settings store, the construction options take the
persisted width/height when present and the fixed defaults otherwise;
the position is copied exactly when both persisted coordinates are
present (so `x` is set iff `y` is set, never one axis alone); and the
minimum-size options are present, with the fixed constants, iff
`disableMinSize` is not persisted as `true`. -/
theorem windowBoundsOptions_spec (s : SettingsStore) :
    (getWindowBoundsOptions s).width
        = ((s.windowBounds.getD emptyBounds).width.getD DEFAULT_WIDTH) ∧
    (getWindowBoundsOptions s).height
        = ((s.windowBounds.getD emptyBounds).height.getD DEFAULT_HEIGHT) ∧
    (if (s.windowBounds.getD emptyBounds).x.isSome
        ∧ (s.windowBounds.getD emptyBounds).y.isSome then
      (getWindowBoundsOptions s).x = (s.windowBounds.getD emptyBounds).x ∧
      (getWindowBoundsOptions s).y = (s.windowBounds.getD emptyBounds).y
    else
      (getWindowBoundsOptions s).x = none ∧ (getWindowBoundsOptions s).y = none) ∧
    ((getWindowBoundsOptions s).x.isSome ↔ (getWindowBoundsOptions s).y.isSome) ∧
    ((getWindowBoundsOptions s).minWidth = some MIN_WIDTH ∧
        (getWindowBoundsOptions s).minHeight = some MIN_HEIGHT ↔
      s.disableMinSize ≠ some true) ∧
    (s.disableMinSize = some true →
      (getWindowBoundsOptions s).minWidth = none ∧
        (getWindowBoundsOptions s).minHeight = none) := by
  unfold getWindowBoundsOptions truthy
  by_cases hd : s.disableMinSize = some true <;>
    by_cases hx : (s.windowBounds.getD emptyBounds).x.isSome <;>
      by_cases hy : (s.windowBounds.getD emptyBounds).y.isSome <;>
        simp [hd, hx, hy]

/-- Witness for `windowBoundsOptions_spec`: for the all-absent store the
options are the defaults with the minimum size applied. -/
theorem windowBoundsOptions_spec_witness :
    (getWindowBoundsOptions
        { windowBounds := none, disableMinSize := none, staticTitle := none,
          tray := none, minimizeToTray := none, discordBranch := none,
          maximized := none, minimized := none }).minWidth = some MIN_WIDTH :=
  ((windowBoundsOptions_spec
      { windowBounds := none, disableMinSize := none, staticTitle := none,
        tray := none, minimizeToTray := none, discordBranch := none,
        maximized := none, minimized := none }).2.2.2.2.1.mpr
    (by decide)).1

/-- Auxiliary: one `tray` change notification leaves the state satisfying
the exists-iff-effective-setting invariant, whatever state it ran from. -/
lemma onTrayChange_invariant (st : TrayState) (b : Bool) :
    (onTrayChange st b).trayExists = trayEffective (onTrayChange st b).traySetting := by
  cases b <;> rfl

/-- Auxiliary: folding a list of `tray` change notifications preserves
the exists-iff-effective-setting invariant. -/
lemma foldl_onTrayChange_invariant (evs : List Bool) (st : TrayState)
    (h : st.trayExists = trayEffective st.traySetting) :
    (evs.foldl onTrayChange st).trayExists
      = trayEffective (evs.foldl onTrayChange st).traySetting := by
  induction evs generalizing st with
  | nil => exact h
  | cons b bs ih => exact ih _ (onTrayChange_invariant st b)

/-- C2: after `createMainWindow` and any sequence of `tray`
setting-change notifications, a tray exists exactly when the `tray`
setting is effectively true (absent defaulting to true); in particular
construction creates a tray iff the setting is true-or-absent, a change
to `true` creates one and a change to `false` destroys any existing
one. -/
theorem tray_exists_iff_setting (s : SettingsStore) (evs : List Bool) (st : TrayState) :
    (applyTrayChanges s evs).trayExists
        = trayEffective (applyTrayChanges s evs).traySetting ∧
    (initialTrayState s).trayExists = trayEffective s.tray ∧
    (onTrayChange st true).trayExists = true ∧
    (onTrayChange st false).trayExists = false := by
  refine ⟨?_, rfl, rfl, rfl⟩
  exact foldl_onTrayChange_invariant evs (initialTrayState s) rfl

/-- Counterexample to C3: on non-Windows, every possible value of the
`winCtrlQ` setting (absent, `false`, `true`) still leaves the visible
Quit item bound to Cmd/Ctrl+Q — no value of the setting removes the
accelerator, because `wantCtrlQ = !isWindows || winCtrlQ` is always true
off Windows. -/
theorem menu_quit_winCtrlQ_counterexample :
    visibleQuitItems false none
        = [{ label := "Quit", accelerator := some "CmdOrCtrl+Q", visible := true }] ∧
    visibleQuitItems false (some false)
        = [{ label := "Quit", accelerator := some "CmdOrCtrl+Q", visible := true }] ∧
    visibleQuitItems false (some true)
        = [{ label := "Quit", accelerator := some "CmdOrCtrl+Q", visible := true }] := by
  refine ⟨rfl, rfl, rfl⟩

/-- C3 (amended): on non-Windows the only visible Quit item is bound to
Cmd/Ctrl+Q unconditionally — the `winCtrlQ` setting has no effect there;
on Windows the only visible Quit item is bound to Alt+F4; a hidden Quit
item bound to Cmd/Ctrl+Q is present on both platforms; and `winCtrlQ`
instead controls whether the (hidden on Windows) first Quit item carries
the Cmd/Ctrl+Q accelerator. -/
theorem menu_quit_accelerators (w : Option Bool) :
    visibleQuitItems false w
        = [{ label := "Quit", accelerator := some "CmdOrCtrl+Q", visible := true }] ∧
    visibleQuitItems true w
        = [{ label := "Quit", accelerator := some "Alt+F4", visible := true }] ∧
    ({ label := "Quit", accelerator := some "CmdOrCtrl+Q", visible := false }
        ∈ appSubmenu false w ∧
      { label := "Quit", accelerator := some "CmdOrCtrl+Q", visible := false }
        ∈ appSubmenu true w) ∧
    (appSubmenu true w)[3]?
        = some { label := "Quit"
                 accelerator := if truthy w then some "CmdOrCtrl+Q" else none
                 visible := false } := by
  rcases w with _ | b
  · refine ⟨rfl, rfl, ⟨by simp [appSubmenu], by simp [appSubmenu]⟩, rfl⟩
  · cases b <;>
      exact ⟨rfl, rfl, ⟨by simp [appSubmenu], by simp [appSubmenu]⟩, rfl⟩

/-- C7: immediately after either visibility event is handled, the Open
item's enabled flag equals the negation of the window's visibility:
enabled after `hide`, disabled after `show`, regardless of the prior
state. -/
theorem trayOpen_enabled_iff_hidden (st : TrayMenuSync) (e : VisibilityEvent) :
    (onVisibilityEvent st e).openEnabled = !(onVisibilityEvent st e).winVisible := by
  cases e <;> rfl

/-- C8: a `move` or `resize` event produces exactly the single write of
the queried full bounds rectangle; a `maximize`, `minimize` or
`unmaximize` event produces exactly the writes of both `maximized` and
`minimized`, each queried from the window — and all three state events
produce identical writes, so the outcome never depends on which of them
fired. -/
theorem bounds_persistence_writes (w : WinQueryState) :
    boundsEventWrites w .move = [SettingsWrite.windowBounds w.bounds] ∧
    boundsEventWrites w .resize = [SettingsWrite.windowBounds w.bounds] ∧
    (boundsEventWrites w .move).length = 1 ∧
    (boundsEventWrites w .resize).length = 1 ∧
    boundsEventWrites w .maximize
        = [SettingsWrite.maximized w.isMaximized,
           SettingsWrite.minimized w.isMinimized] ∧
    boundsEventWrites w .minimize = boundsEventWrites w .maximize ∧
    boundsEventWrites w .unmaximize = boundsEventWrites w .maximize := by
  exact ⟨rfl, rfl, rfl, rfl, rfl, rfl, rfl⟩

/-- Auxiliary: once `isQuitting` is true, no event resets it. -/
lemma stepQuitting_of_true (e : AppEvent) : stepQuitting true e = true := by
  cases e <;> rfl

/-- C9: the quitting flag starts `false`; once `true` it stays `true`
under every subsequent event sequence; and the only events that can turn
it from `false` to `true` are the `before-quit` notification and the tray
Quit click. -/
theorem quitting_flag_one_way (q : Bool) (e : AppEvent) (evs : List AppEvent) :
    initialIsQuitting = false ∧
    runQuitting true evs = true ∧
    (stepQuitting q e = true →
      q = true ∨ e = AppEvent.beforeQuit ∨ e = AppEvent.trayQuitClick) ∧
    (q = true → stepQuitting q e = true) := by
  refine ⟨rfl, ?_, ?_, ?_⟩
  · induction evs with
    | nil => rfl
    | cons a as ih =>
        unfold runQuitting at ih ⊢
        rw [List.foldl_cons, stepQuitting_of_true]
        exact ih
  · intro h
    cases q
    · cases e <;> simp_all [stepQuitting]
    · exact Or.inl rfl
  · intro h
    subst h
    exact stepQuitting_of_true e

/-- Witness for `quitting_flag_one_way`: a `closeRequest` leaves an
already-true flag true, and a true result from `closeRequest` implies the
flag was already true. -/
theorem quitting_flag_one_way_witness :
    stepQuitting true AppEvent.closeRequest = true :=
  (quitting_flag_one_way true AppEvent.closeRequest []).2.2.2 rfl

/-- C10: right after `createMainWindow`, before any show/hide event, the
window was constructed hidden (`show: false`) and no startup step calls
`win.show()`, yet the tray menu's first item (Open) is constructed with
`enabled: false`; so the enabled-iff-hidden correspondence of C7 does not
hold in this initial state. -/
theorem initial_tray_open_mismatch (s : SettingsStore) (v : VencordSettingsStore) :
    (createMainWindowOptions s v).«show» = false ∧
    StartupAction.showWindow ∉ createMainWindowActions s ∧
    (trayMenuItems.map TrayItemModel.enabled)[0]? = some false ∧
    ((trayMenuItems.map TrayItemModel.enabled)[0]?
        ≠ some (!(createMainWindowOptions s v).«show»)) := by
  refine ⟨rfl, ?_, rfl, by simp [trayMenuItems, createMainWindowOptions]⟩
  unfold createMainWindowActions
  by_cases hst : truthy s.staticTitle <;>
    by_cases htr : s.tray.getD true <;>
      simp [hst, htr]

/-- C6: when `disableMinSize` changes to `false`, the minimum size is
restored to the fixed constants and each current dimension becomes the
maximum of itself and the corresponding constant — hence it never
shrinks and ends at or above the minimum; when it changes to `true`, the
minimum size becomes the smallest positive size `(1, 1)` and the current
size is untouched. -/
theorem disableMinSize_change_spec (w : WinGeometry) :
    ((onDisableMinSizeChange w false).minSize
        = { width := MIN_WIDTH, height := MIN_HEIGHT } ∧
      (onDisableMinSizeChange w false).size.width = max w.size.width MIN_WIDTH ∧
      (onDisableMinSizeChange w false).size.height = max w.size.height MIN_HEIGHT ∧
      w.size.width ≤ (onDisableMinSizeChange w false).size.width ∧
      w.size.height ≤ (onDisableMinSizeChange w false).size.height ∧
      MIN_WIDTH ≤ (onDisableMinSizeChange w false).size.width ∧
      MIN_HEIGHT ≤ (onDisableMinSizeChange w false).size.height) ∧
    ((onDisableMinSizeChange w true).minSize = { width := 1, height := 1 } ∧
      (onDisableMinSizeChange w true).size = w.size) := by
  unfold onDisableMinSizeChange
  refine ⟨⟨rfl, rfl, rfl, le_max_left _ _, le_max_left _ _,
    le_max_right _ _, le_max_right _ _⟩, rfl, rfl⟩

end MainWindow
